import Mathlib

/-!
Shallow embedding of `src/fs/Vfat.cpp` (android_system_vold, namespace
`android::vold::vfat`): the vfat integrity checker, mount orchestrator,
formatter, support prober and UTC-offset calculator.

External effects (the fsck/mkfs child processes, the `mount` syscall,
`access`, `mkdir`, the process-wide `errno`) are modelled explicitly:
tool invocations are an oracle `Nat → Int` giving the result of the i-th
invocation, the mount syscall is an oracle consumed per call, and `errno`
is threaded as an explicit `Nat` value.
-/

namespace Vfat

/-- POSIX errno values (Linux/asm-generic). -/
def EIO : Nat := 5

def ENODATA : Nat := 61

def ETIMEDOUT : Nat := 110

def EROFS : Nat := 30

/-- Linux mount flags (linux/fs.h). -/
def MS_RDONLY : Nat := 1

def MS_NOSUID : Nat := 2

def MS_NODEV : Nat := 4

def MS_NOEXEC : Nat := 8

def MS_REMOUNT : Nat := 32

def MS_DIRSYNC : Nat := 128

def MS_NOATIME : Nat := 1024

def kMkfsPath : String := "/system/bin/newfs_msdos"

def kFsckPath : String := "/system/bin/fsck_msdos"

/-- The fixed fsck command built at the top of each loop iteration of
`Check`: `{kFsckPath, "-p", "-f", "-y", source}`. -/
def checkCmd (source : String) : List String :=
  [kFsckPath, "-p", "-f", "-y", source]

/-- Outcome of `Check`: the returned `status_t`, the process `errno`
after the call, and how many times the external tool was invoked. -/
structure CheckOutcome where
  rc : Int
  errno : Nat
  invocations : Nat
deriving DecidableEq, Repr

/-- The `do { ... } while (1)` loop of `Check` (Vfat.cpp lines 60-117).
`attempts i` is the value `ForkExecvpTimeout` returns on the i-th
invocation (negative = fork error, otherwise the exit status of the
tool or the `ETIMEDOUT` timeout sentinel).  `pass` is the mutable pass
counter (starts at 1); `idx` counts invocations already issued; `errno`
is the process errno on entry to the iteration.  `fuel` is a structural
bound on the remaining iterations, 4 at entry; the fuel-exhausted
branch is unreachable from `Check` because the loop re-enters only
while `pass ≤ 3` and `fuel + pass = 5` is invariant. -/
def checkGo (attempts : Nat → Int) : Nat → Nat → Nat → Nat → CheckOutcome
  | 0, _, idx, _ => ⟨-1, EIO, idx⟩
  | fuel + 1, pass, idx, errno =>
    let rc := attempts idx
    if rc < 0 then ⟨-1, EIO, idx + 1⟩
    else if rc = 0 then ⟨0, errno, idx + 1⟩
    else if rc = 1 then ⟨-1, errno, idx + 1⟩
    else if rc = 2 then ⟨-1, ENODATA, idx + 1⟩
    else if rc = 4 then
      if pass ≤ 3 then checkGo attempts fuel (pass + 1) (idx + 1) errno
      else ⟨-1, EIO, idx + 1⟩
    else if rc = 8 then ⟨-1, ENODATA, idx + 1⟩
    else if rc = (ETIMEDOUT : Nat) then ⟨-1, ETIMEDOUT, idx + 1⟩
    else ⟨-1, EIO, idx + 1⟩

/-- Embedding of `Check(source)` (Vfat.cpp lines 60-120): runs the
external check tool, mapping its exit status per the switch; `errno0`
is the process errno when `Check` is entered. -/
def Check (attempts : Nat → Int) (errno0 : Nat) : CheckOutcome :=
  checkGo attempts 4 1 0 errno0

/-- The first-attempt outcome table of spec section 4.2, amended for
the status-1 branch: on exit status 1 the code returns failure but
leaves errno untouched (Vfat.cpp lines 84-86 set no errno), while every
other failing first attempt sets errno as the table says.  Status 4 is
excluded (it retries instead of returning). -/
def checkStatusMapAmended (s : Int) (errno0 : Nat) : CheckOutcome :=
  if s < 0 then ⟨-1, EIO, 1⟩
  else if s = 0 then ⟨0, errno0, 1⟩
  else if s = 1 then ⟨-1, errno0, 1⟩
  else if s = 2 then ⟨-1, ENODATA, 1⟩
  else if s = 8 then ⟨-1, ENODATA, 1⟩
  else if s = (ETIMEDOUT : Nat) then ⟨-1, ETIMEDOUT, 1⟩
  else ⟨-1, EIO, 1⟩

/-- Rendering of printf %o for a non-negative value: octal digits with
no padding and no leading zero (except the single digit of 0 itself). -/
def octal (n : Nat) : String :=
  String.mk (Nat.toDigits 8 n)

/-- Embedding of `currentUtcOffsetMinutes()` (Vfat.cpp lines 122-130):
divides the `tm_gmtoff` field (seconds east of UTC, a C `long` stored
into `int32_t`) by 60 with C truncating division, then casts the
quotient to `int16_t` (two-complement wrap). -/
def currentUtcOffsetMinutes (gmtoff : Int) : Int :=
  let m := Int.tdiv gmtoff 60
  (m + 32768) % 65536 - 32768

/-- The mount option string built by `DoMount` (Vfat.cpp lines
146-175): `StringPrintf("utf8,uid=%d,gid=%d,fmask=%o,dmask=%o,`
`shortname=mixed", uid, gid, permMask, permMask)` followed by the
unconditional `StringPrintf(",time_offset=%d", timeOffsetArg)` where
`timeOffsetArg = currentUtcOffsetMinutes()`.  `gmtoff` stands for the
`tm_gmtoff` the calculator reads. -/
def buildMountData (ownerUid ownerGid : Int) (permMask : Nat) (gmtoff : Int) : String :=
  "utf8,uid=" ++ toString ownerUid ++ ",gid=" ++ toString ownerGid ++
    ",fmask=" ++ octal permMask ++ ",dmask=" ++ octal permMask ++
    ",shortname=mixed" ++ ",time_offset=" ++ toString (currentUtcOffsetMinutes gmtoff)

/-- The mount flag computation of `DoMount` (Vfat.cpp lines 140-144). -/
def mountFlags (ro remount executable : Bool) : Nat :=
  (MS_NODEV ||| MS_NOSUID ||| MS_DIRSYNC ||| MS_NOATIME) |||
    (if executable then 0 else MS_NOEXEC) |||
    (if ro then MS_RDONLY else 0) |||
    (if remount then MS_REMOUNT else 0)

/-- One issued `mount(2)` call: the flag word and the option string
passed to the kernel (source, target and the fixed "vfat" type are the
same on every call within one `DoMount`). -/
structure MountCall where
  flags : Nat
  data : String
deriving DecidableEq, Repr

/-- The OS environment a single `DoMount` run interacts with:
`mountResp i` is the `(rc, errno)` outcome of the i-th `mount(2)` call,
`lostExists` is whether `access("<target>/LOST.DIR", F_OK)` succeeds,
and `mkdirOk` is whether the `mkdir` of LOST.DIR succeeds. -/
structure MountEnv where
  mountResp : Nat → Int × Nat
  lostExists : Bool
  mkdirOk : Bool

/-- What a `DoMount` run did and returned: the `status_t` result, the
sequence of `mount(2)` calls issued, and the `mkdir` call issued for
LOST.DIR, if any, as its path and mode. -/
structure DoMountResult where
  rc : Int
  calls : List MountCall
  mkdirCall : Option (String × Nat)
deriving DecidableEq, Repr

/-- Embedding of `DoMount` (Vfat.cpp lines 132-199): computes flags and
option string, mounts, retries once read-only on `EROFS`, then
best-effort creates `<target>/LOST.DIR` with mode 0755 when the mount
succeeded, `createLost` is set and the directory is absent; the `mkdir`
outcome (`env.mkdirOk`) never affects the returned `rc`. -/
def DoMount (env : MountEnv) (target : String) (ro remount executable : Bool)
    (ownerUid ownerGid : Int) (permMask : Nat) (createLost : Bool) (gmtoff : Int) :
    DoMountResult :=
  let flags := mountFlags ro remount executable
  let mountData := buildMountData ownerUid ownerGid permMask gmtoff
  let r1 := env.mountResp 0
  let afterRetry : Int × List MountCall :=
    if r1.1 ≠ 0 ∧ r1.2 = EROFS then
      let flags2 := flags ||| MS_RDONLY
      let r2 := env.mountResp 1
      (r2.1, [⟨flags, mountData⟩, ⟨flags2, mountData⟩])
    else
      (r1.1, [⟨flags, mountData⟩])
  let rc := afterRetry.1
  let mk : Option (String × Nat) :=
    if rc = 0 ∧ createLost = true ∧ env.lostExists = false then
      some (target ++ "/LOST.DIR", 493)
    else none
  { rc := rc, calls := afterRetry.2, mkdirCall := mk }

/-- The command vector built by `Format` (Vfat.cpp lines 227-239):
`{kMkfsPath, "-O", "android", "-A"}`, then `{"-s", numSectors}` when
`numSectors` is non-zero, then the source. -/
def formatCmd (source : String) (numSectors : Nat) : List String :=
  [kMkfsPath, "-O", "android", "-A"] ++
    (if numSectors ≠ 0 then ["-s", toString numSectors] else []) ++ [source]

/-- Result mapping of `Format` (Vfat.cpp lines 241-256): `rc` is what
`ForkExecvp` returned (negative = launch failure), `errno0` the process
errno on entry; the pair is the returned `status_t` and the errno after
the call. -/
def formatResult (rc : Int) (errno0 : Nat) : Int × Nat :=
  if rc < 0 then (-1, EIO)
  else if rc = 0 then (0, errno0)
  else (-1, EIO)

/-- The facts `IsSupported` queries about the host: `access(kMkfsPath,
X_OK) == 0`, `access(kFsckPath, X_OK) == 0`, and
`IsFilesystemSupported("vfat")`. -/
structure SupportEnv where
  mkfsExecutable : Bool
  fsckExecutable : Bool
  vfatSupported : Bool
deriving DecidableEq, Repr

/-- Embedding of `IsSupported()` (Vfat.cpp lines 55-58). -/
def IsSupported (env : SupportEnv) : Bool :=
  env.mkfsExecutable && env.fsckExecutable && env.vfatSupported

/-- Helper: each `checkGo` run issues at most `fuel` further tool
invocations beyond the `idx` already issued. -/
theorem checkGo_invocations_le (attempts : Nat → Int) :
    ∀ fuel pass idx errno, (checkGo attempts fuel pass idx errno).invocations ≤ idx + fuel := by
  intro fuel
  induction fuel with
  | zero => intro pass idx errno; simp [checkGo]
  | succ n ih =>
    intro pass idx errno
    rw [checkGo]
    split_ifs <;> first
      | (exact le_trans (ih (pass + 1) (idx + 1) errno) (by omega))
      | simp

/-- C1 (counterexample): on exit status 1 the claim says `Check` fails
with the error indicator set to the generic I/O code, but the code
returns failure leaving errno at its prior value (here 0, not EIO). -/
theorem check_status1_no_errno :
    (Check (fun _ => 1) 0).rc = -1 ∧ (Check (fun _ => 1) 0).errno = 0 ∧ (0 : Nat) ≠ EIO := by
  decide

/-- C1 (amended): for every first-attempt outcome other than the
retrying status 4, `Check` returns exactly the table outcome of spec
section 4.2 with consistent errno, except that status 1 returns failure
with errno left unchanged rather than set to the generic I/O code. -/
theorem check_status_map (s : Int) (errno0 : Nat) (hs : s ≠ 4) :
    Check (fun _ => s) errno0 = checkStatusMapAmended s errno0 := by
  unfold Check checkStatusMapAmended
  rw [checkGo]
  split_ifs <;> simp_all

/-- C1 witness: instantiates the status map at exit status 2. -/
theorem check_status_map_witness :
    Check (fun _ => 2) 0 = ⟨-1, ENODATA, 1⟩ := by
  have h := check_status_map 2 0 (by decide)
  rw [h]; decide

/-- C2 (counterexample): the option string `DoMount` passes to the
kernel for uid=1000, gid=1000, permMask=0007 at UTC offset -300 minutes
(tm_gmtoff = -18000 s) renders the masks as `fmask=7,dmask=7` (printf
%o emits no zero padding), not `fmask=07,dmask=07` as claimed. -/
theorem mount_data_not_zero_padded :
    buildMountData 1000 1000 7 (-18000) ≠
      "utf8,uid=1000,gid=1000,fmask=07,dmask=07,shortname=mixed,time_offset=-300" := by
  decide

/-- C2 (amended): the option string for uid=1000, gid=1000,
permMask=0007, UTC offset -300 minutes is exactly
`utf8,uid=1000,gid=1000,fmask=7,dmask=7,shortname=mixed,`
`time_offset=-300`, both masks coming from the single permMask. -/
theorem mount_data_concrete :
    buildMountData 1000 1000 7 (-18000) =
      "utf8,uid=1000,gid=1000,fmask=7,dmask=7,shortname=mixed,time_offset=-300" := by
  decide

/-- C3: `Check` invokes the tool at most 4 times; when the first 4
results are all the dirty status 4 it stops after the 4th attempt and
fails generically with errno set to the I/O code, and when the first
attempt returns 0 it succeeds after exactly 1 invocation. -/
theorem check_attempt_budget (attempts : Nat → Int) (errno0 : Nat) :
    (Check attempts errno0).invocations ≤ 4 ∧
    ((∀ i, i < 4 → attempts i = 4) → Check attempts errno0 = ⟨-1, EIO, 4⟩) ∧
    (attempts 0 = 0 → Check attempts errno0 = ⟨0, errno0, 1⟩) := by
  refine ⟨checkGo_invocations_le attempts 4 1 0 errno0, ?_, ?_⟩
  · intro h
    have h0 := h 0 (by omega)
    have h1 := h 1 (by omega)
    have h2 := h 2 (by omega)
    have h3 := h 3 (by omega)
    simp [Check, checkGo, h0, h1, h2, h3]
  · intro h
    simp [Check, checkGo, h]

/-- C3 witness: all-dirty traces stop at 4 attempts; an immediately
clean trace stops at 1. -/
theorem check_attempt_budget_witness :
    Check (fun _ => 4) 0 = ⟨-1, EIO, 4⟩ ∧ Check (fun _ => 0) 7 = ⟨0, 7, 1⟩ :=
  ⟨(check_attempt_budget (fun _ => 4) 0).2.1 (fun _ _ => rfl),
   (check_attempt_budget (fun _ => 0) 7).2.2 rfl⟩

/-- C4: when the first mount attempt fails with errno EROFS, `DoMount`
issues exactly one retry with the read-only flag added to the same flag
word and the identical option string, and returns whatever the retry
returned (success if it succeeded); for any other first-attempt result
no second mount call is issued. -/
theorem domount_erofs_retry (env : MountEnv) (target : String) (ro remount executable : Bool)
    (uid gid : Int) (permMask : Nat) (createLost : Bool) (gmtoff : Int) :
    ((env.mountResp 0).1 ≠ 0 ∧ (env.mountResp 0).2 = EROFS →
      (DoMount env target ro remount executable uid gid permMask createLost gmtoff).calls =
        [⟨mountFlags ro remount executable, buildMountData uid gid permMask gmtoff⟩,
         ⟨mountFlags ro remount executable ||| MS_RDONLY,
          buildMountData uid gid permMask gmtoff⟩] ∧
      (DoMount env target ro remount executable uid gid permMask createLost gmtoff).rc =
        (env.mountResp 1).1) ∧
    (¬((env.mountResp 0).1 ≠ 0 ∧ (env.mountResp 0).2 = EROFS) →
      (DoMount env target ro remount executable uid gid permMask createLost gmtoff).calls =
        [⟨mountFlags ro remount executable, buildMountData uid gid permMask gmtoff⟩] ∧
      (DoMount env target ro remount executable uid gid permMask createLost gmtoff).rc =
        (env.mountResp 0).1) := by
  constructor <;> intro h <;> simp [DoMount, h]

/-- C4 witness: a device answering EROFS on the writable attempt and
success on the read-only retry yields two mount calls and success. -/
theorem domount_erofs_retry_witness :
    (DoMount ⟨fun i => if i = 0 then (-1, EROFS) else (0, 0), false, true⟩ "/mnt"
        false false false 1000 1000 7 true (-18000)).calls =
      [⟨mountFlags false false false, buildMountData 1000 1000 7 (-18000)⟩,
       ⟨mountFlags false false false ||| MS_RDONLY, buildMountData 1000 1000 7 (-18000)⟩] ∧
    (DoMount ⟨fun i => if i = 0 then (-1, EROFS) else (0, 0), false, true⟩ "/mnt"
        false false false 1000 1000 7 true (-18000)).rc = 0 :=
  (domount_erofs_retry ⟨fun i => if i = 0 then (-1, EROFS) else (0, 0), false, true⟩ "/mnt"
    false false false 1000 1000 7 true (-18000)).1 ⟨by decide, by decide⟩

/-- C5: `DoMount` issues the LOST.DIR mkdir (path `<target>/LOST.DIR`,
mode 0755 = 493) exactly when the mount result is success, `createLost`
is set and the directory is absent; and the mkdir outcome has no effect
whatsoever on the run (in particular the returned result stays the
mount result). -/
theorem domount_lost_dir (env : MountEnv) (target : String) (ro remount executable : Bool)
    (uid gid : Int) (permMask : Nat) (createLost : Bool) (gmtoff : Int) :
    ((DoMount env target ro remount executable uid gid permMask createLost gmtoff).mkdirCall =
      if (DoMount env target ro remount executable uid gid permMask createLost gmtoff).rc = 0 ∧
          createLost = true ∧ env.lostExists = false
        then some (target ++ "/LOST.DIR", 493) else none) ∧
    (∀ b, DoMount { env with mkdirOk := b } target ro remount executable uid gid permMask
        createLost gmtoff =
      DoMount env target ro remount executable uid gid permMask createLost gmtoff) := by
  constructor
  · simp only [DoMount]
  · intro b; rfl

/-- C6: the flag word computed by `DoMount` always contains MS_NODEV,
MS_NOSUID, MS_DIRSYNC and MS_NOATIME, contains MS_NOEXEC exactly when
`executable` is false, MS_RDONLY exactly when `ro` is true, and
MS_REMOUNT exactly when `remount` is true. -/
theorem mount_flags_bits (ro remount executable : Bool) :
    mountFlags ro remount executable &&& MS_NODEV = MS_NODEV ∧
    mountFlags ro remount executable &&& MS_NOSUID = MS_NOSUID ∧
    mountFlags ro remount executable &&& MS_DIRSYNC = MS_DIRSYNC ∧
    mountFlags ro remount executable &&& MS_NOATIME = MS_NOATIME ∧
    (mountFlags ro remount executable &&& MS_NOEXEC =
      if executable then 0 else MS_NOEXEC) ∧
    (mountFlags ro remount executable &&& MS_RDONLY = if ro then MS_RDONLY else 0) ∧
    (mountFlags ro remount executable &&& MS_REMOUNT = if remount then MS_REMOUNT else 0) := by
  cases ro <;> cases remount <;> cases executable <;> decide

/-- C7: the format command is `[kMkfsPath, -O, android, -A, (-s,
<numSectors>)?, <source>]` with the size override omitted exactly when
`numSectors` is 0 and otherwise placed immediately before the source;
the result is success exactly on exit status 0, anything else (launch
failures included) giving -1 with errno set to the generic I/O code. -/
theorem format_cmd_and_result (source : String) (numSectors : Nat) (rc : Int) (errno0 : Nat) :
    (numSectors = 0 → formatCmd source numSectors =
      [kMkfsPath, "-O", "android", "-A", source]) ∧
    (numSectors ≠ 0 → formatCmd source numSectors =
      [kMkfsPath, "-O", "android", "-A", "-s", toString numSectors, source]) ∧
    (formatResult rc errno0 = if rc = 0 then (0, errno0) else (-1, EIO)) := by
  refine ⟨fun h => by simp [formatCmd, h], fun h => by simp [formatCmd, h], ?_⟩
  unfold formatResult
  split_ifs <;> simp_all

/-- C7 witness: sector count 2048 inserts `-s 2048` before the source;
sector count 0 omits it. -/
theorem format_cmd_and_result_witness :
    formatCmd "/dev/block/sda1" 2048 =
      [kMkfsPath, "-O", "android", "-A", "-s", toString 2048, "/dev/block/sda1"] ∧
    formatCmd "/dev/block/sda1" 0 = [kMkfsPath, "-O", "android", "-A", "/dev/block/sda1"] :=
  ⟨(format_cmd_and_result "/dev/block/sda1" 2048 1 0).2.1 (by decide),
   (format_cmd_and_result "/dev/block/sda1" 0 1 0).1 rfl⟩

/-- C8: `IsSupported` is true exactly when the format tool is
executable, the check tool is executable and the kernel supports vfat;
as a total Boolean function of the probed facts it has no error path
and touches no state. -/
theorem is_supported_iff (env : SupportEnv) :
    IsSupported env = true ↔
      env.mkfsExecutable = true ∧ env.fsckExecutable = true ∧ env.vfatSupported = true := by
  simp [IsSupported, Bool.and_eq_true, and_assoc]

/-- C9: an exit status numerically equal to ETIMEDOUT (110) from the
tool itself is mapped to the timeout failure (errno ETIMEDOUT), not to
the unknown-exit-code generic I/O failure that a neighbouring status
such as 111 receives: the sentinel shares the exit-status space. -/
theorem check_timeout_exit_code (errno0 : Nat) :
    Check (fun _ => ((ETIMEDOUT : Nat) : Int)) errno0 = ⟨-1, ETIMEDOUT, 1⟩ ∧
    Check (fun _ => 111) errno0 = ⟨-1, EIO, 1⟩ := by
  constructor <;> simp [Check, checkGo, EIO, ENODATA, ETIMEDOUT]

/-- C10: for every time-zone offset a host can be configured with (well
within one day in magnitude), `currentUtcOffsetMinutes` returns the
seconds-from-UTC field divided by 60 truncating toward zero, the
`int16_t` cast being the identity on that range. -/
theorem utc_offset_minutes_truncates (gmtoff : Int)
    (h1 : -86400 ≤ gmtoff) (h2 : gmtoff ≤ 86400) :
    currentUtcOffsetMinutes gmtoff = Int.tdiv gmtoff 60 := by
  unfold currentUtcOffsetMinutes
  dsimp only
  rcases le_or_lt 0 gmtoff with hg | hg
  · rw [Int.tdiv_eq_ediv hg (by norm_num)]
    omega
  · have h3 : Int.tdiv gmtoff 60 = -Int.tdiv (-gmtoff) 60 := by
      rw [← Int.neg_tdiv, neg_neg]
    rw [h3, Int.tdiv_eq_ediv (by omega) (by norm_num)]
    omega

/-- C10 witness: an offset of -90 seconds yields -1 minute (truncation
toward zero). -/
theorem utc_offset_minutes_truncates_witness :
    currentUtcOffsetMinutes (-90) = -1 := by
  have h := utc_offset_minutes_truncates (-90) (by decide) (by decide)
  rw [h]; decide

end Vfat
